import Mathlib

/-!
Verification of the purity runtime value-validation library (src/mod.ts).

A `Checker` pairs a boolean predicate over arbitrary JavaScript values with a
descriptive type string; combinator factories build checkers from child
checkers.  We embed the JavaScript value universe as an inductive type, the
relevant JavaScript primitive operations (`typeof`, `Array.isArray`,
property access, `Object.keys` / `Object.values`, the `in` operator), and
each checker and combinator of the source, then prove the claimed properties.
-/

namespace Purity

/-- The universe of JavaScript values handled by the library: the primitives
(`undefined`, `null`, boolean, number, string, bigint, symbol), arrays,
plain objects given by their own enumerable string-keyed entries in insertion
order, and builtin host functions (identified by their path, e.g.
`Object.prototype.toString`), which arise as inherited property reads.
Numbers are modelled as integers (no claim depends on non-integral or
special float values); a symbol is identified by a numeric id. -/
inductive JSValue where
  | undefVal : JSValue
  | null : JSValue
  | bool : Bool → JSValue
  | num : Int → JSValue
  | str : String → JSValue
  | bigint : Int → JSValue
  | sym : Nat → JSValue
  | arr : List JSValue → JSValue
  | obj : List (String × JSValue) → JSValue
  | hostFn : String → JSValue

/-- The JavaScript `typeof` operator on our value universe.  Note
`typeof null`, `typeof` of an array and `typeof` of an object all yield
`"object"`, while a function yields `"function"`. -/
def jsTypeof : JSValue → String
  | .undefVal => "undefined"
  | .null => "object"
  | .bool _ => "boolean"
  | .num _ => "number"
  | .str _ => "string"
  | .bigint _ => "bigint"
  | .sym _ => "symbol"
  | .arr _ => "object"
  | .obj _ => "object"
  | .hostFn _ => "function"

/-- `Array.isArray`. -/
def isArray : JSValue → Bool
  | .arr _ => true
  | _ => false

/-- `value === null`. -/
def isNull : JSValue → Bool
  | .null => true
  | _ => false

/-- The string-keyed property names of `Object.prototype` in the Deno host
this library targets (`deno-lint-ignore` directives, `Deno.test`, `jsr:`
imports).  All of them are function-valued (`constructor` being the `Object`
constructor itself); Deno deletes the legacy `__proto__` accessor from
`Object.prototype` at startup, so it is absent here. -/
def objectPrototypeKeys : List String :=
  ["constructor", "hasOwnProperty", "isPrototypeOf", "propertyIsEnumerable",
   "toLocaleString", "toString", "valueOf",
   "__defineGetter__", "__defineSetter__", "__lookupGetter__", "__lookupSetter__"]

/-- The string-keyed property names of `Array.prototype` (ES2023, as shipped
by the V8 engine Deno embeds), excluding `length`, which every array carries
as an own property.  All of them are function-valued (`constructor` being
the `Array` constructor itself). -/
def arrayPrototypeKeys : List String :=
  ["constructor", "at", "concat", "copyWithin", "entries", "every", "fill",
   "filter", "find", "findIndex", "findLast", "findLastIndex", "flat",
   "flatMap", "forEach", "includes", "indexOf", "join", "keys",
   "lastIndexOf", "map", "pop", "push", "reduce", "reduceRight", "reverse",
   "shift", "slice", "some", "sort", "splice", "toLocaleString",
   "toReversed", "toSorted", "toSpliced", "toString", "unshift", "values",
   "with"]

/-- The value a plain object yields for a key it has no own entry for: the
function inherited from `Object.prototype` when the key names one of its
properties, `undefined` otherwise. -/
def objectProtoRead (key : String) : Option JSValue :=
  if key == "constructor" then some (.hostFn "Object")
  else if objectPrototypeKeys.contains key then
    some (.hostFn ("Object.prototype." ++ key))
  else none

/-- The value an array yields for a key that is neither `length` nor an
index: the function inherited from `Array.prototype`, else from
`Object.prototype` (`toString`, `toLocaleString` and `constructor` are
shadowed by `Array.prototype`), else `undefined`. -/
def arrayProtoRead (key : String) : Option JSValue :=
  if key == "constructor" then some (.hostFn "Array")
  else if arrayPrototypeKeys.contains key then
    some (.hostFn ("Array.prototype." ++ key))
  else objectProtoRead key

/-- JavaScript property access `value[key]` for the cases the library
exercises: on an object it is the own entry's value, or the property
inherited from `Object.prototype` when the key names one, or `undefined`;
on an array, `"length"` yields the length, a canonical decimal index in
range yields that element, a key naming an `Array.prototype` or
`Object.prototype` property yields the inherited function, and anything
else `undefined`.  The library never reads properties of primitives or
functions (the `typeof value === 'object'` gate precedes every read), so
those cases are mapped to `undefined`. -/
def getProp : JSValue → String → JSValue
  | .obj fields, key =>
      match fields.find? (fun entry => entry.1 == key) with
      | some entry => entry.2
      | none => (objectProtoRead key).getD .undefVal
  | .arr xs, key =>
      if key == "length" then .num xs.length
      else
        match (List.range xs.length).find? (fun i => toString i == key) with
        | some i => xs.getD i .undefVal
        | none => (arrayProtoRead key).getD .undefVal
  | _, _ => .undefVal

/-- `Object.keys(value)`: own enumerable keys.  For an array these are the
decimal index strings. -/
def objectKeys : JSValue → List String
  | .obj fields => fields.map (fun entry => entry.1)
  | .arr xs => (List.range xs.length).map toString
  | _ => []

/-- `Object.values(value)`: own enumerable values.  For an array these are
its elements. -/
def objectValues : JSValue → List JSValue
  | .obj fields => fields.map (fun entry => entry.2)
  | .arr xs => xs
  | _ => []

mutual

/-- The type-string renderer `Checker.getTypeString` for the "received" half
of an assertion failure: primitives render as their `typeof` name, `null` as
`"null"`, arrays as bracketed comma-joined renderings, objects as
brace-wrapped `key: rendering` pairs (`"\x7b\x7d"` when empty). -/
def getTypeString : JSValue → String
  | .undefVal => "undefined"
  | .bool _ => "boolean"
  | .num _ => "number"
  | .str _ => "string"
  | .bigint _ => "bigint"
  | .sym _ => "symbol"
  | .hostFn _ => "function"
  | .null => "null"
  | .arr xs => "[" ++ String.intercalate ", " (getTypeStringList xs) ++ "]"
  | .obj [] => "\x7b\x7d"
  | .obj fields => "\x7b " ++ String.intercalate ", " (getTypeStringEntries fields) ++ " \x7d"

/-- Renderings of the elements of an array (the `value.map(Checker.getTypeString)`
of the source). -/
def getTypeStringList : List JSValue → List String
  | [] => []
  | x :: xs => getTypeString x :: getTypeStringList xs

/-- Renderings of the entries of an object (the
`entries.map(([k, v]) => k + ': ' + Checker.getTypeString(v))` of the source). -/
def getTypeStringEntries : List (String × JSValue) → List String
  | [] => []
  | entry :: rest => (entry.1 ++ ": " ++ getTypeString entry.2) :: getTypeStringEntries rest

end

/-- A checker: a descriptive type string plus a boolean membership predicate. -/
structure Checker where
  typeString : String
  check : JSValue → Bool

/-- The `CheckerError` raised by `assert`: a `TypeError` carrying the
`expected` and `received` type strings and the display `message` built by
its constructor. -/
structure CheckerError where
  message : String
  expected : String
  received : String

/-- The `CheckerError` constructor: `super` receives the template
`Expected \x27<expected>\x27 but received \x27<received>\x27`. -/
def CheckerError.make (expected received : String) : CheckerError where
  message := "Expected \x27" ++ expected ++ "\x27 but received \x27" ++ received ++ "\x27"
  expected := expected
  received := received

/-- `Checker.assert`: returns the value when `check` accepts it, otherwise
raises a `CheckerError` built from this checker's type string and the
rendered type string of the value. -/
def Checker.assert (c : Checker) (value : JSValue) : Except CheckerError JSValue :=
  if c.check value then .ok value
  else .error (CheckerError.make c.typeString (getTypeString value))

/-- The separator `' | '` used by union-style type strings. -/
def unionSeparator : String := " | "

/-- `$never`: checker that always fails. -/
def never : Checker where
  typeString := "never"
  check := fun _ => false

/-- `$undefined`: checker for `undefined` (`typeof value === 'undefined'`). -/
def undefined : Checker where
  typeString := "undefined"
  check := fun value => jsTypeof value == "undefined"

/-- `$null`: checker for `null` (`value === null`). -/
def nullChecker : Checker where
  typeString := "null"
  check := fun value => isNull value

/-- `$boolean`. -/
def boolean : Checker where
  typeString := "boolean"
  check := fun value => jsTypeof value == "boolean"

/-- `$number`. -/
def number : Checker where
  typeString := "number"
  check := fun value => jsTypeof value == "number"

/-- `$string`. -/
def stringChecker : Checker where
  typeString := "string"
  check := fun value => jsTypeof value == "string"

/-- `$bigint`. -/
def bigint : Checker where
  typeString := "bigint"
  check := fun value => jsTypeof value == "bigint"

/-- `$symbol`. -/
def symbol : Checker where
  typeString := "symbol"
  check := fun value => jsTypeof value == "symbol"

/-- `$union(...checkers)`: type string is the children's type strings joined
by `unionSeparator`; the predicate is `checkers.some(type => type.check(value))`. -/
def union (checkers : List Checker) : Checker where
  typeString := String.intercalate unionSeparator (checkers.map (fun c => c.typeString))
  check := fun value => checkers.any (fun c => c.check value)

/-- `$array(...checkers)`: the element checker is `never` for zero children,
the child itself for one, and the union of the children otherwise; the type
string parenthesizes the element type string exactly when there is more than
one child, then appends `[]`; the predicate is
`Array.isArray(values) && values.every(checker.check)`. -/
def array (checkers : List Checker) : Checker :=
  let checker : Checker :=
    match checkers with
    | [] => never
    | [single] => single
    | _ => union checkers
  { typeString :=
      (if checkers.length > 1 then "(" ++ checker.typeString ++ ")" else checker.typeString)
        ++ "[]"
    check := fun values =>
      match values with
      | .arr xs => xs.all checker.check
      | _ => false }

/-- `$object(record)`: type string is the brace-wrapped comma-joined
`key: typeString` pairs; the predicate rejects non-objects and `null`, then
requires every declared entry's checker to accept `value[key]`. -/
def object (shape : List (String × Checker)) : Checker :=
  let propertyStrings := shape.map (fun entry => entry.1 ++ ": " ++ entry.2.typeString)
  { typeString := "\x7b " ++ String.intercalate ", " propertyStrings ++ " \x7d"
    check := fun value =>
      if jsTypeof value != "object" || isNull value then false
      else shape.all (fun entry => entry.2.check (getProp value entry.1)) }

/-- The JavaScript `in` operator applied to the shape object literal of
`$objectStrict` (`key in record`): true iff the key is an own key of the
shape or a property inherited from `Object.prototype` (the shape is a plain
object literal, so its prototype is `Object.prototype`). -/
def keyInShape (shape : List (String × Checker)) (key : String) : Bool :=
  shape.any (fun entry => entry.1 == key) || objectPrototypeKeys.contains key

/-- `$objectStrict(record)`: like `$object` but additionally requires
`Object.keys(value).every(key => key in record)`. -/
def objectStrict (shape : List (String × Checker)) : Checker :=
  let propertyStrings := shape.map (fun entry => entry.1 ++ ": " ++ entry.2.typeString)
  { typeString := "\x7b " ++ String.intercalate ", " propertyStrings ++ " \x7d"
    check := fun value =>
      if jsTypeof value != "object" || isNull value then false
      else if !((objectKeys value).all (fun key => keyInShape shape key)) then false
      else shape.all (fun entry => entry.2.check (getProp value entry.1)) }

/-- `$record(valueChecker)`: the predicate requires
`typeof value === 'object' && value !== null` and that every own value
satisfies the value checker. -/
def record (valueChecker : Checker) : Checker where
  typeString := "\x7b [key: string]: " ++ valueChecker.typeString ++ " \x7d"
  check := fun value =>
    jsTypeof value == "object" && !isNull value
      && (objectValues value).all valueChecker.check

/-- A raw scalar literal accepted by `$literal`: a string or a number. -/
inductive Scalar where
  | str : String → Scalar
  | num : Int → Scalar

/-- Rendering of one literal in `$literal`'s type string: strings are
double-quoted, numbers use their decimal textual form. -/
def scalarTypeString : Scalar → String
  | .str s => "\"" ++ s ++ "\""
  | .num n => toString n

/-- `literals.includes(value)`: value equality of a scalar literal against a
JavaScript value. -/
def scalarEq : Scalar → JSValue → Bool
  | .str s, .str t => s == t
  | .num n, .num m => n == m
  | _, _ => false

/-- `$literal(...literals)`. -/
def literal (literals : List Scalar) : Checker where
  typeString := String.intercalate " | " (literals.map scalarTypeString)
  check := fun value => literals.any (fun l => scalarEq l value)

/-- `$optional(checker)`: accepts `undefined` or whatever the child accepts. -/
def optional (checker : Checker) : Checker where
  typeString := checker.typeString ++ unionSeparator ++ undefined.typeString
  check := fun value => undefined.check value || checker.check value

/-- `$nullable(checker)`: accepts `null` or whatever the child accepts. -/
def nullable (checker : Checker) : Checker where
  typeString := checker.typeString ++ unionSeparator ++ nullChecker.typeString
  check := fun value => nullChecker.check value || checker.check value

/-- `$tuple(...checkers)`: the value must be an array of exactly matching
length and `checkers.every((Type, i) => Type.check(value[i]))`; `value[i]`
on an array is the element at `i` (in range) and `undefined` otherwise. -/
def tuple (checkers : List Checker) : Checker where
  typeString := "[" ++ String.intercalate ", " (checkers.map (fun c => c.typeString)) ++ "]"
  check := fun value =>
    match value with
    | .arr xs =>
        xs.length == checkers.length
          && checkers.enum.all (fun p => p.2.check (xs.getD p.1 .undefVal))
    | _ => false

/-- Indexed characterization of the `checkers.every((Type, i) => Type.check(value[i]))`
conjunction used by the tuple checker. -/
theorem enum_all_check_iff (checkers : List Checker) (xs : List JSValue) :
    (checkers.enum.all (fun p => p.2.check (xs.getD p.1 JSValue.undefVal)) = true) ↔
      ∀ i : Fin checkers.length,
        (checkers.get i).check (xs.getD i.1 JSValue.undefVal) = true := by
  rw [List.all_eq_true, List.forall_mem_enum]
  constructor
  · intro h i
    simpa using h i.1 i.2
  · intro h i hi
    simpa using h ⟨i, hi⟩

/-- C1: for every checker `C` and value `v`: when `C.check v` is true,
`C.assert v` returns `v` unchanged and raises nothing; when `C.check v` is
false, `C.assert v` raises a `CheckerError` whose `expected` field equals
`C.typeString`, whose `received` field is the rendered type string of `v`,
and whose display message is exactly
`Expected \x27<expected>\x27 but received \x27<received>\x27`. -/
theorem assert_returns_or_raises (C : Checker) (v : JSValue) :
    (C.check v = true → C.assert v = Except.ok v) ∧
    (C.check v = false →
      ∃ e : CheckerError, C.assert v = Except.error e ∧
        e.expected = C.typeString ∧
        e.received = getTypeString v ∧
        e.message =
          "Expected \x27" ++ e.expected ++ "\x27 but received \x27" ++ e.received ++ "\x27") := by
  refine ⟨fun h => ?_, fun h => ?_⟩
  · simp [Checker.assert, h]
  · exact ⟨CheckerError.make C.typeString (getTypeString v),
      by simp [Checker.assert, h], rfl, rfl, rfl⟩

/-- Witness for C1: the `number` checker at the accepted value `1` and the
rejected value `"1"`. -/
theorem assert_returns_or_raises_witness :
    (number.check (JSValue.num 1) = true ∧
      number.assert (JSValue.num 1) = Except.ok (JSValue.num 1)) ∧
    (number.check (JSValue.str "1") = false ∧
      ∃ e : CheckerError, number.assert (JSValue.str "1") = Except.error e ∧
        e.expected = number.typeString ∧
        e.received = getTypeString (JSValue.str "1") ∧
        e.message =
          "Expected \x27" ++ e.expected ++ "\x27 but received \x27" ++ e.received ++ "\x27") :=
  ⟨⟨rfl, (assert_returns_or_raises number (JSValue.num 1)).1 rfl⟩,
   ⟨rfl, (assert_returns_or_raises number (JSValue.str "1")).2 rfl⟩⟩

/-- C2, failing input for the code bug: the strict object checker with an
empty declared shape accepts `\x7b toString: true \x7d`, an object carrying an own
key that is not declared, because the strictness gate `key in record` uses
the JavaScript `in` operator, which also finds the properties the plain
shape literal inherits from `Object.prototype`. -/
theorem objectStrict_accepts_prototype_named_key :
    (objectStrict []).check (JSValue.obj [("toString", JSValue.bool true)]) = true := by
  decide

/-- C3 counterexample: the claim reads every declared key absent from the
value as the undefined sentinel; but on the shape `\x7b toString: $undefined \x7d`
and the value `\x7b\x7d`, the read `value['toString']` yields the function
inherited from `Object.prototype`, so the check returns false even though
the value is a non-null object and the declared checker accepts the
undefined sentinel the claim predicts for the absent key. -/
theorem object_absent_key_counterexample :
    (object [("toString", undefined)]).check (JSValue.obj []) = false ∧
    jsTypeof (JSValue.obj []) = "object" ∧
    isNull (JSValue.obj []) = false ∧
    undefined.check JSValue.undefVal = true ∧
    getProp (JSValue.obj []) "toString" = JSValue.hostFn "Object.prototype.toString" :=
  ⟨rfl, rfl, rfl, rfl, rfl⟩

/-- C3 amended: the lenient object checker accepts `v` iff `v` is a
non-null object value (`typeof v === 'object'` and `v !== null`) and every
declared entry's checker accepts the JavaScript property read `v[key]`: the
own entry's value when the key is an own key of `v`, the function inherited
from `Object.prototype` (on arrays, also `Array.prototype`) when the key
names one of its properties, and the undefined sentinel otherwise, which is
still tested; own keys of `v` outside the shape never cause failure. -/
theorem object_check_iff (shape : List (String × Checker)) (v : JSValue) :
    (object shape).check v = true ↔
      (jsTypeof v = "object" ∧ isNull v = false ∧
        ∀ entry ∈ shape, entry.2.check (getProp v entry.1) = true) := by
  cases v <;> simp [object, jsTypeof, isNull, List.all_eq_true]

/-- C4: with two or more children the array checker accepts exactly the
arrays each of whose elements is accepted by at least one child (the element
checker being the union of the children). -/
theorem array_multi_check_iff (checkers : List Checker) (h : 2 ≤ checkers.length)
    (v : JSValue) :
    (array checkers).check v = true ↔
      ∃ xs, v = JSValue.arr xs ∧ ∀ x ∈ xs, ∃ c ∈ checkers, c.check x = true := by
  match checkers, h with
  | c1 :: c2 :: rest, _ =>
    cases v <;> simp [array, union, List.all_eq_true, List.any_eq_true]

/-- Witness for C4: the two-child array checker of `number` and `string` at
`[1, "3"]`. -/
theorem array_multi_check_iff_witness :
    2 ≤ [number, stringChecker].length ∧
    ((array [number, stringChecker]).check (JSValue.arr [JSValue.num 1, JSValue.str "3"]) = true ↔
      ∃ xs, JSValue.arr [JSValue.num 1, JSValue.str "3"] = JSValue.arr xs ∧
        ∀ x ∈ xs, ∃ c ∈ [number, stringChecker], c.check x = true) :=
  ⟨by decide,
   array_multi_check_iff [number, stringChecker] (by decide)
     (JSValue.arr [JSValue.num 1, JSValue.str "3"])⟩

/-- C5: the array checker with zero children matches exactly the empty
array: every element of a non-empty array fails the `never` element checker,
and every non-array value fails the `Array.isArray` test. -/
theorem array_zero_children_check (v : JSValue) :
    (array []).check v = true ↔ v = JSValue.arr [] := by
  cases v <;> simp [array, never, List.all_eq_true, List.eq_nil_iff_forall_not_mem]

/-- C6: the tuple checker accepts `v` iff `v` is an array whose length
equals exactly the number of child checkers and the checker at each position
accepts the value at that position. -/
theorem tuple_check_iff (checkers : List Checker) (v : JSValue) :
    (tuple checkers).check v = true ↔
      ∃ xs, v = JSValue.arr xs ∧ xs.length = checkers.length ∧
        ∀ i : Fin checkers.length,
          (checkers.get i).check (xs.getD i.1 JSValue.undefVal) = true := by
  cases v
  case arr xs =>
    simp only [tuple, Bool.and_eq_true, beq_iff_eq, enum_all_check_iff]
    constructor
    · rintro ⟨hlen, hall⟩
      exact ⟨xs, rfl, hlen, hall⟩
    · rintro ⟨ys, heq, hlen, hall⟩
      injection heq with h2
      subst h2
      exact ⟨hlen, hall⟩
  all_goals simp [tuple]

/-- C7: the record checker accepts `v` iff `v` is a non-null object value
and every one of its own values satisfies the value checker; in particular
an own key explicitly set to `undefined` is still tested (so
`record(number)` rejects `\x7b foo: 1, bar: undefined \x7d`) and an object with
zero own keys matches. -/
theorem record_check_iff (c : Checker) (v : JSValue) :
    ((record c).check v = true ↔
      (jsTypeof v = "object" ∧ isNull v = false ∧
        ∀ x ∈ objectValues v, c.check x = true)) ∧
    (record number).check (JSValue.obj [("foo", JSValue.num 1), ("bar", JSValue.undefVal)]) = false ∧
    (record number).check (JSValue.obj []) = true := by
  refine ⟨?_, by decide, by decide⟩
  cases v <;> simp [record, jsTypeof, isNull, List.all_eq_true]

/-- C8: the union checker with zero children is constructed (it is a total
Lean term, so construction raises nothing) and its predicate rejects every
value, extensionally equal to the `never` checker's predicate. -/
theorem union_empty_never_equiv (v : JSValue) :
    (union []).check v = false ∧ (union []).check v = never.check v :=
  ⟨rfl, rfl⟩

/-- C9: the array checker's type string is the element checker's type string
wrapped in balanced parentheses followed by `[]` when there is more than one
child, and the element checker's type string (`never`'s for zero children,
the single child's for one) followed directly by `[]` otherwise. -/
theorem array_typeString_cases (checkers : List Checker) :
    (array checkers).typeString =
      match checkers with
      | [] => never.typeString ++ "[]"
      | [single] => single.typeString ++ "[]"
      | _ => "(" ++ (union checkers).typeString ++ ")" ++ "[]" := by
  match checkers with
  | [] => rfl
  | [single] => rfl
  | c1 :: c2 :: rest => simp [array]

/-- C10: the record-type gate of the object, strict-object and record
checkers only requires `typeof value === 'object'` and `value !== null`, so
arrays pass it: `object(\x7b\x7d)` and `objectStrict(\x7b\x7d)` accept `[]`, and
`record(number)` accepts `[1, 2]` (the array's elements being its own
values). -/
theorem object_gate_admits_arrays (xs : List JSValue) :
    jsTypeof (JSValue.arr xs) = "object" ∧
    isNull (JSValue.arr xs) = false ∧
    (object []).check (JSValue.arr []) = true ∧
    (record number).check (JSValue.arr [JSValue.num 1, JSValue.num 2]) = true ∧
    (objectStrict []).check (JSValue.arr []) = true :=
  ⟨rfl, rfl, by decide, by decide, by decide⟩

end Purity

